import Mathlib

/-!
Shallow embedding of `src/plarx/scheduler.py` (classes `Task`,
`TaskGenerator`, `StoredData`, `Scheduler`).

Conventions of the embedding:
- Python dicts that preserve insertion order become association lists
  (`List (key × value)`) with lookup `alookup` and update `aset`.
- Python exceptions become `Except String` (or an explicit
  state-plus-error pair where the source mutates state before raising).
- Numpy array payloads are opaque to the scheduler; a payload is
  identified by a `Nat` tag.  A task result map `{dtypename: array}`
  is `List (String × Nat)`.
- Generator objects are identified by a `gid : Nat` (Python dict keys
  by object identity).  Overridable zero-argument predicate methods
  (`external_input_ready`, `external_inputs_exhausted`) are modelled as
  boolean fields consulted by the scheduler, with the base-class
  defaults (`true` resp. `false`) as the field defaults.
-/

/-- Association-list lookup, mirroring Python `m[k]` /
`k in m` on an insertion-ordered dict. -/
def alookup {α β : Type} [DecidableEq α] : List (α × β) → α → Option β
  | [], _ => none
  | (a, b) :: rest, k => if a = k then some b else alookup rest k

/-- Association-list update `m[k] = v`: replaces in place if the key is
present, appends otherwise (Python dict assignment keeps insertion
order). -/
def aset {α β : Type} [DecidableEq α] : List (α × β) → α → β → List (α × β)
  | [], k, v => [(k, v)]
  | (a, b) :: rest, k, v =>
      if a = k then (k, v) :: rest else (a, b) :: aset rest k v

/-- `collections.defaultdict(list)` append: `m[k].append(v)`. -/
def dd_append {α β : Type} [DecidableEq α] :
    List (α × List β) → α → β → List (α × List β)
  | [], k, v => [(k, [v])]
  | (a, l) :: rest, k, v =>
      if a = k then (a, l ++ [v]) :: rest else (a, l) :: dd_append rest k v

/-- Python `min(iterable)` over a list of ints; the callers in the
source guard against the empty case, where we return 0. -/
def listMinInt : List Int → Int
  | [] => 0
  | x :: xs => xs.foldl min x

/-- `TaskGenerator` (scheduler.py lines 51-139): class attributes and
their defaults.  `gid` identifies the object; `ext_input_ready` and
`ext_inputs_exhausted` model the overridable methods
`external_input_ready` / `external_inputs_exhausted` (base defaults
`True` / `False`). -/
structure TaskGenerator where
  gid : Nat
  dtypes : List String
  wants_input : List (String × Int)
  is_source : Bool := false
  submit_to : String := "thread"
  parallel : Bool := false
  input_delivery : String := "direct"
  priority : Int := 0
  depth : Int := 0
  chunk_i : Int := 0
  need_result_chunk : Int := -1
  has_final_task : Bool := false
  has_finished : Bool := false
  ext_input_ready : Bool := true
  ext_inputs_exhausted : Bool := false
deriving DecidableEq, Repr

/-- A value sitting in `StoredData.stored`.  The drain loop in
`_receive_from_done_tasks` writes `f.result()` — the whole result map —
rather than the single payload, so a stored value is either a payload
or a whole result map. -/
inductive StoredVal where
  | payload (tag : Nat)
  | wholeResult (resultMap : List (String × Nat))
deriving DecidableEq, Repr

/-- `StoredData` (scheduler.py lines 142-157): per-datatype chunk
store.  `seen_by_consumers` maps generator gid to the last chunk seen. -/
structure StoredData where
  dtype : String
  stored : List (Int × StoredVal) := []
  seen_by_consumers : List (Nat × Int) := []
  last_contiguous : Int := -1
  source_exhausted : Bool := false
deriving DecidableEq, Repr

/-- `StoredData.__init__` (lines 153-157): every generator in
`wanted_by` starts with seen-frontier -1. -/
def StoredData.mkInit (dtype : String) (wanted_by : List Nat) : StoredData :=
  { dtype := dtype
    stored := []
    seen_by_consumers := wanted_by.map (fun g => (g, -1))
    last_contiguous := -1
    source_exhausted := false }

/-- `Scheduler.__init__` lines 178-181: `who_wants` is a
defaultdict(list); for each generator `tg` and each `dt` in
`tg.dtypes` (the datatypes `tg` PRODUCES), `tg` is appended to
`who_wants[dt]`. -/
def who_wants (task_generators : List TaskGenerator) :
    List (String × List Nat) :=
  task_generators.foldl
    (fun acc tg => tg.dtypes.foldl (fun acc2 dt => dd_append acc2 dt tg.gid) acc)
    []

/-- `Scheduler.__init__` lines 182-184: one `StoredData` per key of
`who_wants`, with `seen_by_consumers` drawn from `who_wants[dt]`. -/
def scheduler_stored_data (task_generators : List TaskGenerator) :
    List (String × StoredData) :=
  (who_wants task_generators).map
    (fun p => (p.fst, StoredData.mkInit p.fst p.snd))

/-- Demo pipeline for the construction claims: a source `S` (gid 0)
producing datatype "a" and consuming nothing, and a transform `T`
(gid 1) producing "b" and consuming "a" (its `wants_input` lists
("a", 0)). -/
def demoS : TaskGenerator :=
  { gid := 0, dtypes := ["a"], wants_input := [], is_source := true }

/-- The transform of the demo pipeline: consumes "a", produces "b". -/
def demoT : TaskGenerator :=
  { gid := 1, dtypes := ["b"], wants_input := [("a", 0)] }

/-- The demo generator list. -/
def demoGens : List TaskGenerator := [demoS, demoT]

/-- C1: At scheduler construction, a Chunk Store is created for every
datatype that some generator produces, and for each such store the set
of registered consumers (keys of seen_by, each initialized to -1) is
exactly the set of generators whose declared input datatypes include
that datatype.  REFUTED on the code: `who_wants` is built from
`tg.dtypes`, the datatypes a generator PRODUCES, so the store for "a"
registers the producing source S (gid 0, which consumes nothing) as
its sole consumer, while the only generator that consumes "a" is the
transform T (gid 1). -/
theorem c1_construction_registers_producers_as_consumers :
    scheduler_stored_data demoGens =
      [("a", { dtype := "a", stored := [],
               seen_by_consumers := [(0, -1)],
               last_contiguous := -1, source_exhausted := false }),
       ("b", { dtype := "b", stored := [],
               seen_by_consumers := [(1, -1)],
               last_contiguous := -1, source_exhausted := false })] ∧
    demoS.wants_input = [] ∧
    demoT.wants_input = [("a", 0)] := by
  refine ⟨?_, rfl, rfl⟩
  rfl

/-- `_receive_from_done_tasks` inner loop, lines 242-246, for one
completed, non-errored task with non-empty `task.dtypes`: for each
`(dtype, result)` in `f.result().items()` the code executes
`d.stored[task.chunk_i] = f.result()` — storing the WHOLE result map,
not the per-datatype `result` — and bumps `d.last_contiguous` by one
only when it equals `task.chunk_i - 1`.  `full` is `f.result()`,
`items` the remaining iteration; `.error` is Python's KeyError when
`self.stored_data[dtype]` has no such key. -/
def receive_loop (full : List (String × Nat)) (chunk_i : Int)
    (stores : List (String × StoredData)) :
    List (String × Nat) → Except String (List (String × StoredData))
  | [] => .ok stores
  | (dtype, _result) :: rest =>
      match alookup stores dtype with
      | none => .error ("KeyError: " ++ dtype)
      | some d =>
          receive_loop full chunk_i
            (aset stores dtype
              { d with
                stored := aset d.stored chunk_i (StoredVal.wholeResult full)
                last_contiguous :=
                  if d.last_contiguous = chunk_i - 1 then d.last_contiguous + 1
                  else d.last_contiguous })
            rest

/-- The drain step of `_receive_from_done_tasks` for one done task with
result map `result` and chunk number `chunk_i`. -/
def receive_from_done_task (stores : List (String × StoredData))
    (chunk_i : Int) (result : List (String × Nat)) :
    Except String (List (String × StoredData)) :=
  receive_loop result chunk_i stores result

/-- Store state for the C2 scenario: datatype "b" already holds chunk 1
(arrived out of order from a parallel producer), frontier still -1. -/
def demoStoresC2 : List (String × StoredData) :=
  [("b", { dtype := "b"
           stored := [(1, StoredVal.wholeResult [("b", 20)])]
           seen_by_consumers := [(1, -1)]
           last_contiguous := -1
           source_exhausted := false })]

/-- C2: draining a completed task should store, for each
`(datatype, payload)` pair of the result, exactly that payload under
the task's chunk index, and advance the contiguous frontier to the
largest k with all of 0..=k present.  REFUTED on the code: draining
chunk 0 with result map `[("b", 10)]` into a store already holding
chunk 1 stores the WHOLE result map, dtype "b" to payload 10, rather
than the bare payload 10 under index 0, and leaves `last_contiguous = 0` even though chunks 0
and 1 are both present (the largest such k is 1): the
gap-filling insertion does not advance the frontier past the
already-present chunk 1. -/
theorem c2_drain_stores_whole_map_and_stalls_frontier :
    receive_from_done_task demoStoresC2 0 [("b", 10)] =
      .ok [("b", { dtype := "b"
                   stored := [(1, StoredVal.wholeResult [("b", 20)]),
                              (0, StoredVal.wholeResult [("b", 10)])]
                   seen_by_consumers := [(1, -1)]
                   last_contiguous := 0
                   source_exhausted := false })] ∧
    StoredVal.wholeResult [("b", 10)] ≠ StoredVal.payload 10 := by
  exact ⟨rfl, by decide⟩

/-- `Task.__init__` (lines 36-44): the fields the scheduler inspects.
The `content` closure (a `functools.partial` over `task_function`) is
opaque to the scheduler and omitted. -/
structure TaskRec where
  chunk_i : Int
  is_final : Bool
  gen_gid : Nat
  dtypes : List String
  submit_to : String
deriving DecidableEq, Repr

/-- Line 109-112: `Task(content=task_f, generator=self,
chunk_i=self.chunk_i, is_final=False)`. -/
def mkTaskRec (g : TaskGenerator) : TaskRec :=
  { chunk_i := g.chunk_i
    is_final := false
    gen_gid := g.gid
    dtypes := g.dtypes
    submit_to := g.submit_to }

/-- Line 99: `k in self.wants_input` where `k` is a datatype string
drawn from the keys of `inputs` and `wants_input` holds two-element
`[dtype, chunk_i]` lists.  In Python a string never compares equal to
a two-element list, so this membership test is always False. -/
def str_in_wants (_k : String) (_w : List (String × Int)) : Bool := false

/-- `TaskGenerator.task` (lines 87-112).  Returns the generator state
after the call (Python mutates `self` in place, so mutations made
before an exception persist) together with either the constructed
`Task` or the exception raised.  The error paths, in source order:
- line 89/90: failed `assert` raises AssertionError;
- line 93: `self.deliver_inputs(**inputs)` — no attribute
  `deliver_inputs` is defined anywhere in the class (only
  `receive_inputs` exists), so the lookup raises AttributeError;
- line 96: `assert inputs is None` for a source;
- line 99: `assert all(k in self.wants_input for k in inputs)` —
  iterating `inputs=None` raises TypeError, and for a non-empty dict
  the string-vs-pair membership is always False (AssertionError);
- line 100: `assert all(k in inputs for k in self.wants_input)` —
  each `k` is an unhashable `[dtype, chunk]` list, so testing it
  against the dict raises TypeError unless `wants_input` is empty. -/
def TaskGenerator.task (g : TaskGenerator)
    (inputs : Option (List (String × StoredData))) :
    TaskGenerator × Except String TaskRec :=
  let g1 := { g with chunk_i := g.chunk_i + 1 }
  if ¬ g1.chunk_i > g1.need_result_chunk then
    (g1, .error "AssertionError: chunk_i > need_result_chunk")
  else if g1.has_finished then
    (g1, .error "AssertionError: not has_finished")
  else if ¬ g1.parallel then
    (({ g1 with need_result_chunk := g1.chunk_i } : TaskGenerator),
     .error "AttributeError: TaskGenerator object has no attribute deliver_inputs")
  else if g1.is_source then
    match inputs with
    | some _ => (g1, .error "AssertionError: Passed inputs to source")
    | none => (g1, .ok (mkTaskRec g1))
  else
    match inputs with
    | none => (g1, .error "TypeError: NoneType object is not iterable")
    | some ins =>
        if ¬ ins.all (fun kv => str_in_wants kv.fst g1.wants_input) then
          (g1, .error "AssertionError: unwanted input")
        else if g1.wants_input ≠ [] then
          (g1, .error "TypeError: unhashable type: list")
        else if g1.input_delivery = "direct" then
          let g2 := { g1 with
            wants_input := g1.wants_input.map (fun p => (p.fst, p.snd + 1)) }
          (g2, .ok (mkTaskRec g2))
        else
          (g1, .ok (mkTaskRec g1))

/-- A freshly constructed parallel source (class defaults
`chunk_i = 0`, `need_result_chunk = -1`), the only kind of generator
whose `task()` can run to completion. -/
def demoParSource : TaskGenerator :=
  { gid := 2, dtypes := ["a"], wants_input := [], is_source := true,
    parallel := true }

/-- C5: for every generator the chunk indices of the tasks it emits
start at 0 and are strictly increasing.  The strict increase holds
(`chunk_i` is incremented on every call), but the START IS REFUTED on
the code: `chunk_i` is initialized to 0 (line 66) and `task()`
pre-increments it (line 88), so the very first task a fresh generator
constructs carries chunk index 1, not 0.  (Downstream this means
`StoredData.last_contiguous`, which waits for chunk 0, can never
advance.) -/
theorem c5_first_emitted_chunk_index_is_one :
    demoParSource.chunk_i = 0 ∧
    (TaskGenerator.task demoParSource none).2 =
      .ok { chunk_i := 1, is_final := false, gen_gid := 2,
            dtypes := ["a"], submit_to := "thread" } ∧
    (TaskGenerator.task demoParSource none).1.chunk_i = 1 := by
  exact ⟨rfl, rfl, rfl⟩

/-- `_get_new_task` lines 256-257: `exhausted_inputs =
sum([list(tg.dtypes) for tg in self.task_generators], [])` — the
concatenation of EVERY generator's produced datatypes, independent of
any exhaustion state. -/
def exhausted_inputs (task_generators : List TaskGenerator) : List String :=
  task_generators.foldl (fun acc tg => acc ++ tg.dtypes) []

/-- `_cleanup_cache` (lines 327-336).  Iterates the stores in order;
for a store with no registered consumers it raises RuntimeError (the
stores already processed keep their mutation, the rest are untouched);
otherwise it drops every entry with index `<= min(seen_by values)`.
Returns the store map after the call plus the exception, if any. -/
def cleanup_cache :
    List (String × StoredData) → List (String × StoredData) × Option String
  | [] => ([], none)
  | (dt, d) :: rest =>
      if d.seen_by_consumers.length = 0 then
        ((dt, d) :: rest, some "RuntimeError: not consumed by anyone")
      else
        let seen_by_all := listMinInt (d.seen_by_consumers.map Prod.snd)
        let d2 := { d with
          stored := d.stored.filter (fun p => decide (seen_by_all < p.fst)) }
        let r := cleanup_cache rest
        ((dt, d2) :: r.fst, r.snd)

/-- The wants loop of `_get_new_task` (lines 282-285):
`if chunk_id not in self.stored_data[dtype]` — the right-hand side is
a `StoredData` OBJECT, which defines none of `__contains__`,
`__iter__` or `__getitem__`, so the membership test itself raises
TypeError on the first wanted pair (after a KeyError if the datatype
has no store).  The `requests_for[dtype] += 1` on line 284 is
therefore never reached. -/
def wants_check (stores : List (String × StoredData))
    (requests_for : List (String × Int)) :
    List (String × Int) → Except String (List (String × Int))
  | [] => .ok requests_for
  | (dtype, _chunk_id) :: _rest =>
      match alookup stores dtype with
      | none => .error ("KeyError: " ++ dtype)
      | some _ => .error "TypeError: argument of type StoredData is not iterable"

/-- Python string indexing `s[i]` with an int index: negative indices
count from the end; out of range raises IndexError. -/
def pyStrIndex (s : String) (i : Int) : Except String String :=
  let n : Int := (s.toList.length : Int)
  let j : Int := if i < 0 then n + i else i
  if 0 ≤ j ∧ j < n then
    match s.toList.get? j.toNat with
    | some c => .ok (String.mk [c])
    | none => .error "IndexError: string index out of range"
  else .error "IndexError: string index out of range"

/-- The input-building loop of `_get_new_task` (lines 288-291):
`self.stored_data[dtype].seen_by_consumers[tg] = chunk_i`, then
`task_inputs[dtype] = self.stored_data[dtype[chunk_i]]` — note the
typo: the STRING `dtype` is indexed by `chunk_i` and the resulting
one-character name is looked up in `stored_data`, binding a whole
`StoredData` object (not a payload) as the input value. -/
def build_inputs_loop (tg : TaskGenerator) (stores : List (String × StoredData))
    (task_inputs : List (String × StoredData)) :
    List (String × Int) →
    Except String (List (String × StoredData) × List (String × StoredData))
  | [] => .ok (stores, task_inputs)
  | (dtype, chunk_i) :: rest =>
      match alookup stores dtype with
      | none => .error ("KeyError: " ++ dtype)
      | some d =>
          let stores2 := aset stores dtype
            { d with seen_by_consumers := aset d.seen_by_consumers tg.gid chunk_i }
          match pyStrIndex dtype chunk_i with
          | .error e => .error e
          | .ok ch =>
              match alookup stores2 ch with
              | none => .error ("KeyError: " ++ ch)
              | some dsub =>
                  build_inputs_loop tg stores2 (aset task_inputs dtype dsub) rest

/-- What the `_get_new_task` loop body (lines 259-294) does with one
generator.  Mutated objects are carried in the constructors. -/
inductive AdmitOutcome where
  | externalWait (tg : TaskGenerator)
  | blockedOnResult (tg : TaskGenerator)
  | collectedSource (tg : TaskGenerator)
  | finalTaskRequested (tg : TaskGenerator)
  | markedFinished (tg : TaskGenerator)
  | alreadyFinished (tg : TaskGenerator)
  | admitted (tg : TaskGenerator) (t : TaskRec)
      (stores : List (String × StoredData))
      (task_inputs : List (String × StoredData))
deriving DecidableEq, Repr

/-- `_get_new_task` loop body after the external-wait and
blocked-on-result gates (lines 267-294) for one generator `tg`:
- line 267-270: a source is collected for the source-fallback phase;
- lines 273-281: the exhausted-inputs branch.  Its condition is
  `(not tg.is_source or tg.external_inputs_exhausted()) and
  all(dt in exhausted_inputs for dt in tg.dtypes)` — since
  `exhausted_inputs` is every generator's produced datatypes, the
  `all` is True for every generator in the list, so every non-source
  is treated as input-exhausted: it gets its final task, or is marked
  finished, or (already finished) is skipped;
- lines 282-294 (unreachable for generators in the list): the wants
  check, input building, `_cleanup_cache()` and `tg.task(...)`. -/
def admission_step_rest (task_generators : List TaskGenerator)
    (stores : List (String × StoredData)) (requests_for : List (String × Int))
    (tg : TaskGenerator) :
    Except String (AdmitOutcome × List (String × Int)) :=
  if tg.is_source then .ok (.collectedSource tg, requests_for)
  else if (!tg.is_source || tg.ext_inputs_exhausted) &&
      tg.dtypes.all (fun dt => (exhausted_inputs task_generators).contains dt) then
    if !tg.has_finished then
      if tg.has_final_task then .ok (.finalTaskRequested tg, requests_for)
      else .ok (.markedFinished { tg with has_finished := true }, requests_for)
    else .ok (.alreadyFinished tg, requests_for)
  else
    match wants_check stores requests_for tg.wants_input with
    | .error e => .error e
    | .ok requests2 =>
        match build_inputs_loop tg stores [] tg.wants_input with
        | .error e => .error e
        | .ok (stores2, task_inputs) =>
            let r := cleanup_cache stores2
            match r.snd with
            | some e => .error e
            | none =>
                let tr := TaskGenerator.task tg (some task_inputs)
                match tr.snd with
                | .error e => .error e
                | .ok t => .ok (.admitted tr.fst t r.fst task_inputs, requests2)

/-- `_get_new_task` loop body (lines 259-294) for one generator:
line 260-262 skips generators whose `external_input_ready()` is
False; lines 263-266 skip a non-parallel generator whose first
produced datatype has `last_contiguous < need_result_chunk`
(short-circuit: the store lookup only happens when `not tg.parallel`;
`tg.dtypes[0]` raises IndexError on an empty list and the store
lookup raises KeyError when absent); the rest is
`admission_step_rest`. -/
def admission_step (task_generators : List TaskGenerator)
    (stores : List (String × StoredData)) (requests_for : List (String × Int))
    (tg : TaskGenerator) :
    Except String (AdmitOutcome × List (String × Int)) :=
  if ¬ tg.ext_input_ready then .ok (.externalWait tg, requests_for)
  else if tg.parallel then admission_step_rest task_generators stores requests_for tg
  else
    match tg.dtypes with
    | [] => .error "IndexError: list index out of range"
    | dt0 :: _ =>
        match alookup stores dt0 with
        | none => .error ("KeyError: " ++ dt0)
        | some d =>
            if d.last_contiguous < tg.need_result_chunk then
              .ok (.blockedOnResult tg, requests_for)
            else admission_step_rest task_generators stores requests_for tg

/-- Store state for the C3 scenario: the wanted chunk ("a", 0) is
present in the store. -/
def demoStoresC3 : List (String × StoredData) :=
  [("a", { dtype := "a"
           stored := [(0, StoredVal.payload 10)]
           seen_by_consumers := [(0, -1)]
           last_contiguous := 0
           source_exhausted := false }),
   ("b", { dtype := "b"
           stored := []
           seen_by_consumers := [(1, -1)]
           last_contiguous := -1
           source_exhausted := false })]

/-- C3: with every wanted (datatype, chunk) pair present, admission
should fetch the inputs, mark them seen, run gc and return the
generator's task.  REFUTED on the code: the transform T wants
("a", 0), which IS present, yet the admission pass merely marks T
finished and admits nothing — the exhausted-inputs test
`all(dt in exhausted_inputs for dt in tg.dtypes)` compares T's own
PRODUCED datatypes against the concatenation of all produced
datatypes and is therefore always true, short-circuiting the
input-fetching code.  Moreover, had the wants check been reached, its
membership test `chunk_id not in self.stored_data[dtype]` raises
TypeError (a StoredData supports no membership test), so the input
map could never be built anyway. -/
theorem c3_inputs_present_but_no_task_admitted :
    admission_step demoGens demoStoresC3 [] demoT =
      .ok (.markedFinished { demoT with has_finished := true }, []) ∧
    (alookup demoStoresC3 "a").map (fun d => alookup d.stored 0) =
      some (some (StoredVal.payload 10)) ∧
    wants_check demoStoresC3 [] demoT.wants_input =
      .error "TypeError: argument of type StoredData is not iterable" := by
  exact ⟨rfl, rfl, rfl⟩

/-- Store state for the C4 scenario: the wanted chunk ("a", 0) is
absent (store "a" is empty). -/
def demoStoresC4 : List (String × StoredData) :=
  [("a", { dtype := "a"
           stored := []
           seen_by_consumers := [(0, -1)]
           last_contiguous := -1
           source_exhausted := false }),
   ("b", { dtype := "b"
           stored := []
           seen_by_consumers := [(1, -1)]
           last_contiguous := -1
           source_exhausted := false })]

/-- C4: with a wanted (datatype, chunk) pair absent, admission should
skip the generator and record a request for the missing datatype.
REFUTED on the code: the transform T wants ("a", 0), which is absent,
yet the admission pass never records any request — it marks T
finished via the always-true exhausted-inputs branch, and the
returned request map is unchanged (empty).  Had the wants loop been
reached, its membership test raises TypeError before the
`requests_for[dtype] += 1`, and its `continue` only continues the
inner loop, so it could not have skipped the generator either. -/
theorem c4_missing_input_records_no_request :
    admission_step demoGens demoStoresC4 [] demoT =
      .ok (.markedFinished { demoT with has_finished := true }, []) ∧
    (alookup demoStoresC4 "a").map (fun d => alookup d.stored 0) =
      some none ∧
    wants_check demoStoresC4 [] demoT.wants_input =
      .error "TypeError: argument of type StoredData is not iterable" := by
  exact ⟨rfl, rfl, rfl⟩

/-- A freshly constructed non-parallel source (class default
`parallel = False`). -/
def demoNonPar : TaskGenerator :=
  { gid := 3, dtypes := ["c"], wants_input := [], is_source := true }

/-- The generator state after `demoNonPar.task(None)` (Python mutates
`self` before the call raises). -/
def demoNonParAfter : TaskGenerator := (TaskGenerator.task demoNonPar none).1

/-- Store state for the C8 scenario: datatype "c" has
`last_contiguous = 0`, below the blocked-on chunk 1. -/
def demoStoresC8 : List (String × StoredData) :=
  [("c", { dtype := "c"
           stored := []
           seen_by_consumers := [(3, -1)]
           last_contiguous := 0
           source_exhausted := false })]

/-- C8: a non-parallel generator records the chunk it is blocked on
when it constructs a task, and admission skips it until that chunk
has landed.  The bookkeeping halves are present in the code — `task()`
sets `need_result_chunk` to the new chunk index, and the admission
gate (lines 263-266) yields a skip while `last_contiguous <
need_result_chunk` — but the claim is REFUTED as stated: `task()` on a
non-parallel generator raises AttributeError at
`self.deliver_inputs(**inputs)` (line 93; no such attribute exists)
BEFORE any Task object is constructed, so a non-parallel generator
can never construct any task at all; "at most one in-flight task"
holds only because it has zero. -/
theorem c8_nonparallel_records_chunk_but_task_raises :
    (TaskGenerator.task demoNonPar none).2 =
      .error "AttributeError: TaskGenerator object has no attribute deliver_inputs" ∧
    demoNonParAfter.need_result_chunk = 1 ∧
    demoNonParAfter.chunk_i = 1 ∧
    admission_step [demoNonParAfter] demoStoresC8 [] demoNonParAfter =
      .ok (.blockedOnResult demoNonParAfter, []) := by
  exact ⟨rfl, rfl, rfl, rfl⟩

/-- The scheduler state touched by `exit_with_exception`:
`on_exception_called` records the gids whose `finish_on_exception`
ran, `cancelled_count` how many pending futures were cancelled, and
the two booleans whether each pool's `shutdown()` ran. -/
structure ShutdownState where
  task_generators : List TaskGenerator
  on_exception_called : List Nat := []
  pending_count : Nat := 0
  cancelled_count : Nat := 0
  threadpool_shut : Bool := false
  processpool_shut : Bool := false
deriving DecidableEq, Repr

/-- Line 341: `if not tg.finished:` — `TaskGenerator` defines
`has_finished` (line 72), and `_receive_from_done_tasks` sets
`is_finished` (line 235), but no attribute named `finished` exists
anywhere, so the lookup raises AttributeError. -/
def getattr_finished (_tg : TaskGenerator) : Except String Bool :=
  .error "AttributeError: TaskGenerator object has no attribute finished"

/-- The body of `exit_with_exception` (lines 340-352).  One loop
iteration: read `tg.finished` (raises AttributeError, state
unchanged); were it readable, an unfinished generator would get
`finish_on_exception(exception)` with secondary exceptions swallowed
(lines 342-347) — and then line 348 `raise exception` executes INSIDE
the loop, so the remaining generators, the future cancellations
(lines 349-350) and the pool shutdowns (lines 351-352) are skipped.
Those cleanup lines run only when the generator list is empty, in
which case the function returns without raising at all. -/
def exit_loop (exception : String) (st : ShutdownState) :
    List TaskGenerator → ShutdownState × Except String Unit
  | [] =>
      ({ st with cancelled_count := st.pending_count
                 threadpool_shut := true
                 processpool_shut := true }, .ok ())
  | tg :: _rest =>
      match getattr_finished tg with
      | .error e => (st, .error e)
      | .ok fin =>
          let st1 :=
            if fin then st
            else { st with on_exception_called := st.on_exception_called ++ [tg.gid] }
          (st1, .error exception)

/-- `Scheduler.exit_with_exception` (lines 338-352): returns the state
after the call and the exception it raises (`.ok` means it returned
without raising). -/
def exit_with_exception (st : ShutdownState) (exception : String) :
    ShutdownState × Except String Unit :=
  exit_loop exception st st.task_generators

/-- A shutdown scenario: two unfinished generators, two pending
tasks. -/
def demoShutdown : ShutdownState :=
  { task_generators := [demoS, demoT], pending_count := 2 }

/-- C6: on a task error, shutdown should call on_exception on every
unfinished generator (swallowing secondary errors), cancel every
pending handle, shut down both pools, and only then surface the
original error.  REFUTED on the code: with two unfinished generators
and two pending tasks, `exit_with_exception` raises AttributeError at
`tg.finished` on the very first generator — no `finish_on_exception`
is called, nothing is cancelled, neither pool is shut down, and the
surfaced exception is not even the original error.  (Had the
attribute existed, line 348 `raise exception` still sits inside the
loop, so cancellation and pool shutdown would be skipped anyway.) -/
theorem c6_shutdown_raises_before_any_cleanup :
    exit_with_exception demoShutdown "boom" =
      (demoShutdown,
       .error "AttributeError: TaskGenerator object has no attribute finished") ∧
    demoShutdown.on_exception_called = [] ∧
    demoShutdown.cancelled_count = 0 ∧
    demoShutdown.threadpool_shut = false ∧
    demoShutdown.processpool_shut = false ∧
    ("AttributeError: TaskGenerator object has no attribute finished" ≠
      ("boom" : String)) := by
  exact ⟨rfl, rfl, rfl, rfl, rfl, by decide⟩

/-- `TaskGenerator.__init__` (lines 74-77): raises RuntimeError when
`self.input_delivery != 'direct' and not self.parallel`. -/
def taskgenerator_init (tg : TaskGenerator) : Except String TaskGenerator :=
  if tg.input_delivery ≠ "direct" ∧ tg.parallel = false then
    .error "RuntimeError: Cannot parallelize a TaskGenerator with indirect input delivery."
  else .ok tg

/-- A parallel generator with staged (non-inline) input delivery
(`input_delivery = 'separate'`). -/
def demoSepParallel : TaskGenerator :=
  { gid := 4, dtypes := ["d"], wants_input := [],
    parallel := true, input_delivery := "separate" }

/-- A non-parallel generator with staged input delivery. -/
def demoSepNonParallel : TaskGenerator :=
  { gid := 5, dtypes := ["e"], wants_input := [],
    parallel := false, input_delivery := "separate" }

/-- C9: construction should reject exactly the parallel + staged
combination and admit a non-parallel generator in either delivery
mode.  REFUTED on the code: the guard is inverted — it fires on
`not self.parallel`, so the parallel + staged generator is ACCEPTED
while the non-parallel + staged generator is REJECTED, contradicting
the guard's own error message ("Cannot parallelize a TaskGenerator
with indirect input delivery"). -/
theorem c9_init_check_is_inverted :
    taskgenerator_init demoSepParallel = .ok demoSepParallel ∧
    taskgenerator_init demoSepNonParallel =
      .error "RuntimeError: Cannot parallelize a TaskGenerator with indirect input delivery." := by
  exact ⟨rfl, rfl⟩

/-- The filtered `stored` dict a gc pass leaves behind for one store:
only entries with index above the minimum seen frontier survive. -/
def gcFilter (d : StoredData) : List (Int × StoredVal) :=
  d.stored.filter
    (fun p => decide (listMinInt (d.seen_by_consumers.map Prod.snd) < p.fst))

/-- Unfolding equation for `cleanup_cache` on a cons cell. -/
theorem cleanup_cache_cons (dt : String) (d : StoredData)
    (tail : List (String × StoredData)) :
    cleanup_cache ((dt, d) :: tail) =
      if d.seen_by_consumers.length = 0 then
        ((dt, d) :: tail, some "RuntimeError: not consumed by anyone")
      else
        ((dt, { d with stored := gcFilter d }) :: (cleanup_cache tail).1,
         (cleanup_cache tail).2) := rfl

/-- C7: after every garbage-collection pass that completes (raises
nothing), every store's every remaining entry has index strictly
greater than the minimum of that store's per-consumer seen frontiers;
and the pass raises a fatal RuntimeError whenever some store has no
registered consumers.  CONFIRMED: `_cleanup_cache` checks
`len(d.seen_by_consumers)` first and otherwise rebuilds `d.stored`
keeping only indices `> min(d.seen_by_consumers.values())`. -/
theorem c7_gc_drops_fully_seen_and_flags_dead_output
    (stores : List (String × StoredData)) :
    ((cleanup_cache stores).2 = none →
      ∀ p ∈ (cleanup_cache stores).1, ∀ q ∈ p.2.stored,
        listMinInt (p.2.seen_by_consumers.map Prod.snd) < q.1) ∧
    ((∃ p ∈ stores, p.2.seen_by_consumers = []) →
      (cleanup_cache stores).2.isSome) := by
  induction stores with
  | nil =>
      constructor
      · intro _ p hp
        simp [cleanup_cache] at hp
      · rintro ⟨p, hp, -⟩
        simp at hp
  | cons head tail ih =>
      obtain ⟨dt, d⟩ := head
      by_cases hd : d.seen_by_consumers.length = 0
      · constructor
        · intro h0
          rw [cleanup_cache_cons, if_pos hd] at h0
          simp at h0
        · intro _
          rw [cleanup_cache_cons, if_pos hd]
          simp
      · constructor
        · intro h0 p hp q hq
          rw [cleanup_cache_cons, if_neg hd] at h0 hp
          simp only at h0
          rcases List.mem_cons.mp hp with hp1 | hp2
          · subst hp1
            simp only at hq
            have := (List.mem_filter.mp hq).2
            simpa using this
          · exact ih.1 h0 p hp2 q hq
        · rintro ⟨p, hp, hcons⟩
          rw [cleanup_cache_cons, if_neg hd]
          simp only
          rcases List.mem_cons.mp hp with hp1 | hp2
          · subst hp1
            exact absurd (by simpa using hcons) (by simpa using hd)
          · exact ih.2 ⟨p, hp2, hcons⟩

/-- A store list for instantiating the C7 theorem: one store for "a"
holding chunks 0 and 1 with its single consumer's frontier at 0. -/
def demoStoresC7 : List (String × StoredData) :=
  [("a", { dtype := "a"
           stored := [(0, StoredVal.payload 1), (1, StoredVal.payload 2)]
           seen_by_consumers := [(7, 0)]
           last_contiguous := 1
           source_exhausted := false })]

/-- The "a" store after the gc pass: chunk 0 (index less than or equal
to the minimum frontier 0) is dropped. -/
def demoStoreC7After : StoredData :=
  { dtype := "a"
    stored := [(1, StoredVal.payload 2)]
    seen_by_consumers := [(7, 0)]
    last_contiguous := 1
    source_exhausted := false }

/-- Witness for C7 at a concrete input: the pass on `demoStoresC7`
completes, and the surviving entry (index 1) of the "a" store is
strictly above the minimum seen frontier (0). -/
theorem c7_witness :
    (cleanup_cache demoStoresC7).2 = none ∧
    listMinInt (demoStoreC7After.seen_by_consumers.map Prod.snd) < (1 : Int) :=
  ⟨rfl,
   (c7_gc_drops_fully_seen_and_flags_dead_output demoStoresC7).1 rfl
     ("a", demoStoreC7After) (by decide) (1, StoredVal.payload 2) (by decide)⟩

/-- The sort order of `Scheduler.__init__` line 172: the Python key
tuples `(tg.priority, tg.depth)` compared lexicographically. -/
def genLe (a b : TaskGenerator) : Prop :=
  a.priority < b.priority ∨ (a.priority = b.priority ∧ a.depth ≤ b.depth)

instance : DecidableRel genLe := fun a b => by
  unfold genLe
  infer_instance

instance : IsTotal TaskGenerator genLe := by
  constructor
  intro a b
  unfold genLe
  omega

instance : IsTrans TaskGenerator genLe := by
  constructor
  intro a b c
  unfold genLe
  omega

/-- `Scheduler.__init__` lines 171-172: `self.task_generators =
task_generators` binds the SAME list object the caller passed (no
copy), then `self.task_generators.sort(key=...)` reorders that object
in place.  List objects live in a heap mapping references to list
values; the constructor is given the caller's reference `r` and
returns the updated heap together with the reference the scheduler
retains.  Python's `list.sort` is a stable sort by the key, which on
a total preorder computes the same list as insertion sort, used
here. -/
def scheduler_init_sort (heap : Nat → List TaskGenerator) (r : Nat) :
    (Nat → List TaskGenerator) × Nat :=
  (fun x => if x = r then List.insertionSort genLe (heap x) else heap x, r)

/-- C10: constructing a Scheduler sorts the caller-supplied list in
place by ascending (priority, depth).  CONFIRMED: the scheduler
retains the caller's own reference, the list value behind that
reference after construction is the stable sort of the original by
(priority, depth) — sorted and a permutation of the caller's list —
and every other reference is untouched. -/
theorem c10_constructor_sorts_callers_list_in_place
    (heap : Nat → List TaskGenerator) (r x : Nat) (hx : x ≠ r) :
    (scheduler_init_sort heap r).2 = r ∧
    (scheduler_init_sort heap r).1 r = List.insertionSort genLe (heap r) ∧
    List.Sorted genLe ((scheduler_init_sort heap r).1 r) ∧
    ((scheduler_init_sort heap r).1 r).Perm (heap r) ∧
    (scheduler_init_sort heap r).1 x = heap x := by
  refine ⟨rfl, by simp [scheduler_init_sort], ?_, ?_, by simp [scheduler_init_sort, hx]⟩
  · simp only [scheduler_init_sort, if_pos rfl]
    exact List.sorted_insertionSort genLe (heap r)
  · simp only [scheduler_init_sort, if_pos rfl]
    exact List.perm_insertionSort genLe (heap r)

/-- A generator with priority 2 for the C10 witness. -/
def demoHi : TaskGenerator :=
  { gid := 8, dtypes := [], wants_input := [], priority := 2 }

/-- A generator with priority 1 for the C10 witness. -/
def demoLo : TaskGenerator :=
  { gid := 9, dtypes := [], wants_input := [], priority := 1 }

/-- A concrete heap: reference 0 holds the caller's generator list
(out of order), every other reference an empty list. -/
def demoHeap : Nat → List TaskGenerator :=
  fun n => if n = 0 then [demoHi, demoLo] else []

/-- Witness for C10 at a concrete input: after construction on the
caller's reference 0, the list behind reference 0 is a permutation of
the original, and an unrelated reference 1 is untouched. -/
theorem c10_witness :
    ((scheduler_init_sort demoHeap 0).1 0).Perm (demoHeap 0) ∧
    (scheduler_init_sort demoHeap 0).1 1 = demoHeap 1 :=
  ⟨(c10_constructor_sorts_callers_list_in_place demoHeap 0 1 (by decide)).2.2.2.1,
   (c10_constructor_sorts_callers_list_in_place demoHeap 0 1 (by decide)).2.2.2.2⟩
